import Mathlib

/-
Shallow embedding of `payload_designer/components.py` (Foreoptics, VPHGrism,
ThinLens, AchromDoublet).

Modelling conventions:
- Python `None`-able fields become `Option` fields; every constructor default
  is `none`, as in the Python `__init__` signatures.
- Python exceptions become `Except PyErr`; an `assert x is not None, msg`
  failure is `PyErr.assertErr msg`, a `raise ValueError(msg)` is
  `PyErr.valueErr msg`, and arithmetic or ufunc application on `None`
  (e.g. `np.radians(None)`, `None * 10 ** -3`) is `PyErr.typeErr`, since
  Python raises `TypeError` there.
- Every method is embedded in state-passing style `C → Except PyErr α × C`;
  the returned state is the receiver unchanged because no method in the
  source assigns to `self`.
- IEEE NaN is modelled by `Option ℝ` (`none` = NaN): `np.arcsin` yields NaN
  outside `[-1, 1]`, and NaN propagates through arithmetic and `sin`.
  Division by a zero index inside the Snell step also yields `none`, since in
  numpy the quotient is `inf`/`nan` and its arcsin is NaN either way.
- `array_like` parameters (the wavelength array of `VPHGrism.get_angle_out`,
  and the vectorized `ThinLens` fields) are modelled by `NpInput`: either a
  scalar or a 1-D array. `np.array(x).reshape(-1, 1)` is `reshapeCol`, which
  turns a scalar into a one-element column. `np.matmul` of an m-column with a
  transposed n-column is the m×n outer product, written out elementwise.
  The remaining `VPHGrism` parameters are scalars, per the class docstring
  (`a_in`, `a`, `m`, `n_1`, `n_2`, `n_3`, `v` are declared `float`/`int`),
  so the grism output matrix has exactly one row.
- The transmittance LUT reference `T` of `ThinLens` is an external
  collaborator (file I/O) and is not part of the modelled state.
-/

namespace PayloadDesigner

/-- Python exception outcomes relevant to `components.py`. -/
inductive PyErr where
  | typeErr : PyErr
  | valueErr : String → PyErr
  | assertErr : String → PyErr
deriving DecidableEq

/-- Scalar-or-array argument, as accepted by the numpy-vectorized methods. -/
inductive NpInput where
  | scalar : ℝ → NpInput
  | arr : List ℝ → NpInput

/-- Model of `np.array(x).reshape(-1, 1)`: a scalar becomes a one-element
column, an array becomes a column of its entries. -/
def reshapeCol : NpInput → List ℝ
  | .scalar x => [x]
  | .arr xs => xs

/-- Elementwise application of a unary ufunc such as `np.tan`, `np.radians`. -/
def npMap (g : ℝ → ℝ) : NpInput → NpInput
  | .scalar x => .scalar (g x)
  | .arr xs => .arr (xs.map g)

/-- Binary numpy broadcasting between two scalar-or-1-D operands: scalars
broadcast against arrays, equal lengths combine elementwise, a length-one
array broadcasts, and any other shape pair raises `ValueError`. -/
def npBinop (op : ℝ → ℝ → ℝ) : NpInput → NpInput → Except PyErr NpInput
  | .scalar x, .scalar y => .ok (.scalar (op x y))
  | .scalar x, .arr ys => .ok (.arr (ys.map fun y => op x y))
  | .arr xs, .scalar y => .ok (.arr (xs.map fun x => op x y))
  | .arr xs, .arr ys =>
    if xs.length = ys.length then .ok (.arr (List.zipWith op xs ys))
    else
      match xs, ys with
      | [x], ys => .ok (.arr (ys.map fun y => op x y))
      | xs, [y] => .ok (.arr (xs.map fun x => op x y))
      | _, _ => .error (.valueErr "operands could not be broadcast together")

noncomputable section

/-- Model of `np.radians`: degrees to radians. -/
def radians (x : ℝ) : ℝ := x * (Real.pi / 180)

/-- Model of `np.degrees`: radians to degrees. -/
def degrees (x : ℝ) : ℝ := x * (180 / Real.pi)

/-- NaN-propagating `np.sin` on the NaN-able reals. -/
def osin (x : Option ℝ) : Option ℝ := x.map Real.sin

/-- NaN-propagating `np.arcsin`: NaN for arguments outside `[-1, 1]`. -/
def oasin (x : Option ℝ) : Option ℝ :=
  x.bind fun y => if |y| ≤ 1 then some (Real.arcsin y) else none

/-- NaN-propagating addition. -/
def oadd (x y : Option ℝ) : Option ℝ := x.bind fun a => y.map fun b => a + b

/-- NaN-propagating subtraction. -/
def osub (x y : Option ℝ) : Option ℝ := x.bind fun a => y.map fun b => a - b

/-- NaN-propagating map by a real function. -/
def omap (g : ℝ → ℝ) (x : Option ℝ) : Option ℝ := x.map g

/-- Modelled from the spec: `physlib.snell_angle_2` — the
`payload_designer.libs.physlib` module is not under `src/`. Spec §4.4: "The
refraction sub-step is a shared pure function: `θ2 = asin(n1·sin(θ1)/n2)`,
producing `NaN` (propagated, not raised) for angles beyond the critical
angle". NaN inputs propagate; a zero `n_2` divisor gives an `inf`/`nan`
quotient whose arcsin is again NaN, hence `none`. -/
def snell_angle_2 (angle_1 : Option ℝ) (n_1 n_2 : ℝ) : Option ℝ :=
  angle_1.bind fun t =>
    if n_2 = 0 then none
    else if |n_1 * Real.sin t / n_2| ≤ 1 then
      some (Real.arcsin (n_1 * Real.sin t / n_2))
    else none

/-- Foreoptics component (components.py:15): a record of optional scalars. -/
structure Foreoptics where
  ds_i : Option ℝ := none
  ds_o : Option ℝ := none
  n : Option ℝ := none
  dm_a : Option ℝ := none
  a_in_max : Option ℝ := none
  na : Option ℝ := none
  b : Option ℝ := none
  g : Option ℝ := none
  s : Option ℝ := none

/-- components.py:53 `get_aperture_diameter`: asserts `ds_i`; path A from the
f-number `ds_i / n`, path B from the numerical aperture `2 * (ds_i * na)`,
else `ValueError`. -/
def Foreoptics.get_aperture_diameter (f : Foreoptics) :
    Except PyErr ℝ × Foreoptics :=
  (match f.ds_i with
   | none => .error (.assertErr "ds_i is not set.")
   | some ds_i =>
     match f.n with
     | some n => .ok (ds_i / n)
     | none =>
       match f.na with
       | some na => .ok (2 * (ds_i * na))
       | none => .error (.valueErr "n or na must be set.")
   , f)

/-- components.py:70 `get_magnification`: asserts `ds_i`, `ds_o`; `ds_i/ds_o`. -/
def Foreoptics.get_magnification (f : Foreoptics) :
    Except PyErr ℝ × Foreoptics :=
  (match f.ds_i with
   | none => .error (.assertErr "ds_i is not set.")
   | some ds_i =>
     match f.ds_o with
     | none => .error (.assertErr "ds_o is not set.")
     | some ds_o => .ok (ds_i / ds_o)
   , f)

/-- components.py:83 `get_f_number`: path A `1/(2*na)`, path B `ds_i/dm_a`,
else `ValueError`. -/
def Foreoptics.get_f_number (f : Foreoptics) : Except PyErr ℝ × Foreoptics :=
  (match f.na with
   | some na => .ok (1 / (2 * na))
   | none =>
     match f.ds_i, f.dm_a with
     | some ds_i, some dm_a => .ok (ds_i / dm_a)
     | _, _ => .error (.valueErr "ds_i and dm_a or na must be set.")
   , f)

/-- components.py:98 `get_effective_focal_length`: asserts `ds_i`, `ds_o`;
`(ds_o + ds_i) / (ds_o * ds_i)`. -/
def Foreoptics.get_effective_focal_length (f : Foreoptics) :
    Except PyErr ℝ × Foreoptics :=
  (match f.ds_i with
   | none => .error (.assertErr "ds_i is not set.")
   | some ds_i =>
     match f.ds_o with
     | none => .error (.assertErr "ds_o is not set.")
     | some ds_o => .ok ((ds_o + ds_i) / (ds_o * ds_i))
   , f)

/-- components.py:111 `get_numerical_aperture`: the source runs
`a_in_max = np.radians(self.a_in_max)` unconditionally, which raises
`TypeError` when the field is `None`; when the field is set, the converted
local is a float and never `None`, so the `elif self.n is not None` branch
and the final `ValueError` are unreachable. -/
def Foreoptics.get_numerical_aperture (f : Foreoptics) :
    Except PyErr ℝ × Foreoptics :=
  (match f.a_in_max with
   | none => .error .typeErr
   | some a_in_max => .ok (Real.sin (radians a_in_max))
   , f)

/-- components.py:131 `get_geometric_etendue`: asserts `s`, `a_in_max`;
`π * (s * sin(a_in_max)^2)` with the angle converted to radians. -/
def Foreoptics.get_geometric_etendue (f : Foreoptics) :
    Except PyErr ℝ × Foreoptics :=
  (match f.s with
   | none => .error (.assertErr "s is not set.")
   | some s =>
     match f.a_in_max with
     | none => .error (.assertErr "a_in_max is not set.")
     | some a_in_max =>
       .ok (Real.pi * (s * Real.sin (radians a_in_max) ^ 2))
   , f)

/-- components.py:148 `get_radiant_flux`: asserts `b`, `g`; `b * g`. -/
def Foreoptics.get_radiant_flux (f : Foreoptics) :
    Except PyErr ℝ × Foreoptics :=
  (match f.b with
   | none => .error (.assertErr "b is not set.")
   | some b =>
     match f.g with
     | none => .error (.assertErr "g is not set.")
     | some g => .ok (b * g)
   , f)

/-- VPHGrism component (components.py:162): a record of optional scalars,
with the wavelength array `l` scalar-or-array. -/
structure VPHGrism where
  d : Option ℝ := none
  t : Option ℝ := none
  a_in : Option ℝ := none
  a_out : Option ℝ := none
  R : Option ℝ := none
  l : Option NpInput := none
  l_g : Option ℝ := none
  a : Option ℝ := none
  m : Option ℝ := none
  n_1 : Option ℝ := none
  n_2 : Option ℝ := none
  n_3 : Option ℝ := none
  v : Option ℝ := none
  dl : Option ℝ := none
  N : Option ℝ := none

/-- Stages 1–4 of the `get_angle_out` chain (components.py:250-253), per
scalar parameters: `angle_1 = a_in + a` (both already in radians),
`angle_2 = snell(angle_1, n_1, n_2)`, `angle_3 = a - angle_2`,
`angle_4 = snell(angle_3, n_2, n_3)`. -/
def grism_angle_4 (a_in a n_1 n_2 n_3 : ℝ) : Option ℝ :=
  let angle_1 : Option ℝ := some (radians a_in + radians a)
  let angle_2 := snell_angle_2 angle_1 n_1 n_2
  let angle_3 := osub (some (radians a)) angle_2
  snell_angle_2 angle_3 n_2 n_3

/-- One entry of the `get_angle_out` output matrix (components.py:244-262),
for scalar grism parameters and the wavelength column entry `lj` (nm):
`lj` is converted to metres (`* 10 ** -9`), `angle_5 = angle_4`,
`angle_6 = arcsin(sin(angle_5) - m * (v * l))` (the `(0, j)` entry of
`m * np.matmul(v, transpose(l))` for a 1×1 `v` column), `angle_7 = angle_6`,
`angle_8 = snell(angle_7, n_3, n_2)`, `angle_9 = angle_8 - a`,
`angle_10 = snell(angle_9, n_2, n_1)`, and the returned entry is
`degrees(angle_10 + a)`. -/
def angleOutEntry (a_in a n_1 n_2 n_3 m v lj : ℝ) : Option ℝ :=
  let l_m := lj * (10 : ℝ) ^ (-9 : ℤ)
  let angle_5 := grism_angle_4 a_in a n_1 n_2 n_3
  let angle_6 := oasin (osub (osin angle_5) (some (m * (v * l_m))))
  let angle_7 := angle_6
  let angle_8 := snell_angle_2 angle_7 n_3 n_2
  let angle_9 := osub angle_8 (some (radians a))
  let angle_10 := snell_angle_2 angle_9 n_2 n_1
  omap degrees (oadd angle_10 (some (radians a)))

/-- components.py:218 `get_angle_out`: asserts `a_in`, `n_1`, `n_2`, `n_3`,
`m`, `a`, `v`, `l` in that order, reshapes each input into a column vector,
and computes the 10-stage chain. With scalar parameters (their declared
types) every column except the wavelength column has one row, so the result
is the 1×n matrix of `angleOutEntry` over the wavelength column. -/
def VPHGrism.get_angle_out (g : VPHGrism) :
    Except PyErr (List (List (Option ℝ))) × VPHGrism :=
  (match g.a_in with
   | none => .error (.assertErr "a_in is not set.")
   | some a_in =>
     match g.n_1 with
     | none => .error (.assertErr "n_1 is not set.")
     | some n_1 =>
       match g.n_2 with
       | none => .error (.assertErr "n_2 is not set.")
       | some n_2 =>
         match g.n_3 with
         | none => .error (.assertErr "n_3 is not set.")
         | some n_3 =>
           match g.m with
           | none => .error (.assertErr "m is not set.")
           | some m =>
             match g.a with
             | none => .error (.assertErr "a is not set.")
             | some a =>
               match g.v with
               | none => .error (.assertErr "v is not set.")
               | some v =>
                 match g.l with
                 | none => .error (.assertErr "l is not set.")
                 | some l =>
                   .ok [(reshapeCol l).map
                          (angleOutEntry a_in a n_1 n_2 n_3 m v)]
   , g)

/-- components.py:266 `get_resolvance`: path A `l / dl` (elementwise over the
wavelength input), path B `m * N`, else `ValueError`. -/
def VPHGrism.get_resolvance (g : VPHGrism) : Except PyErr NpInput × VPHGrism :=
  (match g.l, g.dl with
   | some l, some dl => npBinop (fun x y => x / y) l (.scalar dl)
   | _, _ =>
     match g.m, g.N with
     | some m, some N => .ok (.scalar (m * N))
     | _, _ => .error (.valueErr "l and dl or m and N must be set.")
   , g)

/-- components.py:284 `get_resolution`: path A `l / R`, path B `l / (m * N)`,
else `ValueError`. -/
def VPHGrism.get_resolution (g : VPHGrism) : Except PyErr NpInput × VPHGrism :=
  (match g.l, g.R with
   | some l, some R => npBinop (fun x y => x / y) l (.scalar R)
   | _, _ =>
     match g.l, g.m, g.N with
     | some l, some m, some N => npBinop (fun x y => x / y) l (.scalar (m * N))
     | _, _, _ => .error (.valueErr "l and R or l and m and N must be set.")
   , g)

/-- ThinLens component (components.py:303): `D`, `M` are scalars; the ray
parameters are scalar-or-array; the transmittance LUT reference is an
external collaborator and not modelled. -/
structure ThinLens where
  D : Option ℝ := none
  M : Option ℝ := none
  a_in : Option NpInput := none
  a_out : Option NpInput := none
  d_i : Option NpInput := none
  d_o : Option NpInput := none
  f : Option NpInput := none
  h_i : Option NpInput := none
  h_o : Option NpInput := none

/-- components.py:349 `get_image_distance`: asserts `f`; returns `f`. -/
def ThinLens.get_image_distance (t : ThinLens) :
    Except PyErr NpInput × ThinLens :=
  (match t.f with
   | none => .error (.assertErr "f is not set.")
   | some f => .ok f
   , t)

/-- components.py:361 `get_source_distance`: asserts `f`; returns `f`. -/
def ThinLens.get_source_distance (t : ThinLens) :
    Except PyErr NpInput × ThinLens :=
  (match t.f with
   | none => .error (.assertErr "f is not set.")
   | some f => .ok f
   , t)

/-- components.py:373 `get_image_height`: asserts `f`, `a_in`; reshapes both
into columns, converts the angle column to radians, and returns
`np.matmul(f, transpose(tan(a_in)))`, the m×n outer product with entry
`(i, j) = f_i * tan(a_in_j)`. -/
def ThinLens.get_image_height (t : ThinLens) :
    Except PyErr (List (List ℝ)) × ThinLens :=
  (match t.f with
   | none => .error (.assertErr "f is not set.")
   | some f =>
     match t.a_in with
     | none => .error (.assertErr "a_in is not set.")
     | some a_in =>
       let fc := reshapeCol f
       let ac := (reshapeCol a_in).map radians
       .ok (fc.map fun fi => ac.map fun aj => fi * Real.tan aj)
   , t)

/-- components.py:395 `get_source_height`: asserts `f`, `a_out`; same outer
product with the outgoing angle. -/
def ThinLens.get_source_height (t : ThinLens) :
    Except PyErr (List (List ℝ)) × ThinLens :=
  (match t.f with
   | none => .error (.assertErr "f is not set.")
   | some f =>
     match t.a_out with
     | none => .error (.assertErr "a_out is not set.")
     | some a_out =>
       let fc := reshapeCol f
       let ac := (reshapeCol a_out).map radians
       .ok (fc.map fun fi => ac.map fun aj => fi * Real.tan aj)
   , t)

/-- components.py:417 `get_focal_length`: priority-ordered paths
(1) `d_i`, (2) `d_o`, (3) `h_i / tan(radians(a_in))` when both are set,
(4) `h_o / tan(radians(a_out))` when both are set, else
`ValueError("d_i or d_o or h_i and a_in or h_o and a_out must be set.")`. -/
def ThinLens.get_focal_length (t : ThinLens) :
    Except PyErr NpInput × ThinLens :=
  (match t.d_i with
   | some d_i => .ok d_i
   | none =>
     match t.d_o with
     | some d_o => .ok d_o
     | none =>
       match t.h_i, t.a_in with
       | some h_i, some a_in =>
         npBinop (fun x y => x / y) h_i (npMap Real.tan (npMap radians a_in))
       | _, _ =>
         match t.h_o, t.a_out with
         | some h_o, some a_out =>
           npBinop (fun x y => x / y) h_o
             (npMap Real.tan (npMap radians a_out))
         | _, _ =>
           .error
             (.valueErr "d_i or d_o or h_i and a_in or h_o and a_out must be set.")
   , t)

/-- AchromDoublet component (components.py:454). -/
structure AchromDoublet where
  f_1 : Option ℝ := none
  f_2 : Option ℝ := none
  f_eq : Option ℝ := none
  V_1 : Option ℝ := none
  V_2 : Option ℝ := none

/-- components.py:479 `focal_length_1`: asserts `V_1`, `V_2`, `f_eq`;
converts `f_eq` mm→m (`* 10 ** -3`) and returns
`f_eq * (V_1 - V_2) / V_1`. -/
def AchromDoublet.focal_length_1 (d : AchromDoublet) :
    Except PyErr ℝ × AchromDoublet :=
  (match d.V_1 with
   | none => .error (.assertErr "V_1 is not set.")
   | some V_1 =>
     match d.V_2 with
     | none => .error (.assertErr "V_2 is not set.")
     | some V_2 =>
       match d.f_eq with
       | none => .error (.assertErr "f_eq is not set.")
       | some f_eq => .ok (f_eq * (10 : ℝ) ^ (-3 : ℤ) * (V_1 - V_2) / V_1)
   , d)

/-- components.py:491 `focal_length_2`: asserts `V_1`, `V_2`, `f_eq`;
converts `f_eq` mm→m and returns `-f_eq * (V_1 - V_2) / V_2`. -/
def AchromDoublet.focal_length_2 (d : AchromDoublet) :
    Except PyErr ℝ × AchromDoublet :=
  (match d.V_1 with
   | none => .error (.assertErr "V_1 is not set.")
   | some V_1 =>
     match d.V_2 with
     | none => .error (.assertErr "V_2 is not set.")
     | some V_2 =>
       match d.f_eq with
       | none => .error (.assertErr "f_eq is not set.")
       | some f_eq => .ok (-(f_eq * (10 : ℝ) ^ (-3 : ℤ)) * (V_1 - V_2) / V_2)
   , d)

/-- components.py:503 `effective_focal_length`: the source first runs
`f_1 = self.f_1 * 10 ** -3` and `f_2 = self.f_2 * 10 ** -3` unconditionally,
which raises `TypeError` if either field is `None`; the subsequent
`if f_1 is not None` always holds on the converted float, so the
`elif f_2 is not None` branch and the `ValueError("f_1 or f_2 must be
set.")` are unreachable. The Abbe numbers are then used without a `None`
check, so an unset `V_1` or `V_2` also raises `TypeError`. -/
def AchromDoublet.effective_focal_length (d : AchromDoublet) :
    Except PyErr ℝ × AchromDoublet :=
  (match d.f_1 with
   | none => .error .typeErr
   | some f_1 =>
     match d.f_2 with
     | none => .error .typeErr
     | some _ =>
       match d.V_1, d.V_2 with
       | some V_1, some V_2 =>
         .ok (f_1 * (10 : ℝ) ^ (-3 : ℤ) * V_1 / (V_1 - V_2))
       | _, _ => .error .typeErr
   , d)

end

/-! Helper lemmas shared by the claim theorems. -/

theorem degrees_radians (x : ℝ) : degrees (radians x) = x := by
  unfold degrees radians
  field_simp

theorem degrees_neg (x : ℝ) : degrees (-x) = -degrees x := by
  unfold degrees
  ring

theorem abs_radians_le_half_pi {x : ℝ} (hx : |x| ≤ 90) :
    |radians x| ≤ Real.pi / 2 := by
  unfold radians
  rw [abs_mul, abs_of_pos (show (0:ℝ) < Real.pi / 180 by positivity)]
  calc |x| * (Real.pi / 180) ≤ 90 * (Real.pi / 180) :=
        mul_le_mul_of_nonneg_right hx (by positivity)
    _ = Real.pi / 2 := by ring

theorem snell_same_index {n t : ℝ} (hn : n ≠ 0) (h1 : -(Real.pi / 2) ≤ t)
    (h2 : t ≤ Real.pi / 2) : snell_angle_2 (some t) n n = some t := by
  have hs : n * Real.sin t / n = Real.sin t := by field_simp
  simp [snell_angle_2, hn, hs, abs_le, Real.neg_one_le_sin, Real.sin_le_one,
    Real.arcsin_sin h1 h2]

theorem oasin_sin_eq {t : ℝ} (h1 : -(Real.pi / 2) ≤ t) (h2 : t ≤ Real.pi / 2) :
    oasin (some (Real.sin t)) = some t := by
  simp [oasin, abs_le, Real.neg_one_le_sin, Real.sin_le_one,
    Real.arcsin_sin h1 h2]

/-- C9: no derivation method mutates its owning component record: for every
Foreoptics, VPHGrism, ThinLens, and AchromDoublet instance, the state
returned by each derivation method — whether it succeeds or errors — equals
the receiver from before the call. -/
theorem no_method_mutates_state :
    (∀ f : Foreoptics, (f.get_aperture_diameter).2 = f) ∧
    (∀ f : Foreoptics, (f.get_magnification).2 = f) ∧
    (∀ f : Foreoptics, (f.get_f_number).2 = f) ∧
    (∀ f : Foreoptics, (f.get_effective_focal_length).2 = f) ∧
    (∀ f : Foreoptics, (f.get_numerical_aperture).2 = f) ∧
    (∀ f : Foreoptics, (f.get_geometric_etendue).2 = f) ∧
    (∀ f : Foreoptics, (f.get_radiant_flux).2 = f) ∧
    (∀ g : VPHGrism, (g.get_angle_out).2 = g) ∧
    (∀ g : VPHGrism, (g.get_resolvance).2 = g) ∧
    (∀ g : VPHGrism, (g.get_resolution).2 = g) ∧
    (∀ t : ThinLens, (t.get_image_distance).2 = t) ∧
    (∀ t : ThinLens, (t.get_source_distance).2 = t) ∧
    (∀ t : ThinLens, (t.get_image_height).2 = t) ∧
    (∀ t : ThinLens, (t.get_source_height).2 = t) ∧
    (∀ t : ThinLens, (t.get_focal_length).2 = t) ∧
    (∀ d : AchromDoublet, (d.focal_length_1).2 = d) ∧
    (∀ d : AchromDoublet, (d.focal_length_2).2 = d) ∧
    (∀ d : AchromDoublet, (d.effective_focal_length).2 = d) :=
  ⟨fun _ => rfl, fun _ => rfl, fun _ => rfl, fun _ => rfl, fun _ => rfl,
   fun _ => rfl, fun _ => rfl, fun _ => rfl, fun _ => rfl, fun _ => rfl,
   fun _ => rfl, fun _ => rfl, fun _ => rfl, fun _ => rfl, fun _ => rfl,
   fun _ => rfl, fun _ => rfl, fun _ => rfl⟩

/-- C7: with `ds_i` and a nonzero f-number `n` set, `get_aperture_diameter`
returns `ds_i / n` by path A regardless of `na`; and with `n` unset but
`na = 1/(2n)` set, path B returns `2 * (ds_i * (1/(2n)))`, which equals the
path-A value `ds_i / n` exactly. -/
theorem aperture_diameter_cross_path (f : Foreoptics) (d n : ℝ)
    (hd : f.ds_i = some d) (hn : f.n = some n) (hnz : n ≠ 0) :
    (f.get_aperture_diameter).1 = .ok (d / n) ∧
    ∀ g : Foreoptics, g.ds_i = some d → g.n = none →
      g.na = some (1 / (2 * n)) →
      (g.get_aperture_diameter).1 = .ok (2 * (d * (1 / (2 * n)))) ∧
        2 * (d * (1 / (2 * n))) = d / n := by
  refine ⟨by simp [Foreoptics.get_aperture_diameter, hd, hn], ?_⟩
  intro g hgd hgn hgna
  refine ⟨by simp [Foreoptics.get_aperture_diameter, hgd, hgn, hgna], ?_⟩
  field_simp
  ring

theorem aperture_diameter_cross_path_witness :
    (({ ds_i := some 10, n := some 2 } : Foreoptics).get_aperture_diameter).1 =
      .ok (10 / 2) ∧
    (({ ds_i := some 10, na := some (1 / (2 * 2)) } :
        Foreoptics).get_aperture_diameter).1 =
      .ok (2 * (10 * (1 / (2 * 2)))) := by
  have h := aperture_diameter_cross_path
    { ds_i := some 10, n := some 2 } 10 2 rfl rfl (by norm_num)
  exact ⟨h.1,
    (h.2 { ds_i := some 10, na := some (1 / (2 * 2)) } rfl rfl rfl).1⟩

/-- C4 counterexample: with `a_in_max` unset and the f-number set to 2,
`get_numerical_aperture` does not return `1/(2*2)`: the unconditional
`np.radians(None)` raises `TypeError` before the f-number fallback can
run. -/
theorem numerical_aperture_fallback_cex :
    (({ n := some 2 } : Foreoptics).get_numerical_aperture).1 ≠
      .ok (1 / (2 * 2)) := by
  simp [Foreoptics.get_numerical_aperture]

/-- C4 (amended): with `a_in_max` unset, `get_numerical_aperture` fails with
`TypeError` (the f-number fallback is unreachable); with `a_in_max` set it
returns `sin(radians(a_in_max))` regardless of the other fields. -/
theorem numerical_aperture_behavior (f : Foreoptics) :
    (f.a_in_max = none →
      (f.get_numerical_aperture).1 = .error .typeErr) ∧
    ∀ x, f.a_in_max = some x →
      (f.get_numerical_aperture).1 = .ok (Real.sin (radians x)) := by
  constructor
  · intro h; simp [Foreoptics.get_numerical_aperture, h]
  · intro x h; simp [Foreoptics.get_numerical_aperture, h]

theorem numerical_aperture_behavior_witness :
    (({ n := some 2 } : Foreoptics).get_numerical_aperture).1 =
      .error .typeErr ∧
    (({ a_in_max := some 30, n := some 2 } :
        Foreoptics).get_numerical_aperture).1 =
      .ok (Real.sin (radians 30)) :=
  ⟨(numerical_aperture_behavior _).1 rfl,
   (numerical_aperture_behavior _).2 30 rfl⟩

/-- C5: the code contradicts its documented fallback. With `f_1` unset but
`f_2`, `V_1`, `V_2` set, `effective_focal_length` raises `TypeError` at the
unconditional `self.f_1 * 10 ** -3` conversion instead of returning
`-f_2 * V_2 / (V_1 - V_2)`; with neither focal length set it also raises
`TypeError` instead of the documented `ValueError`. -/
theorem effective_focal_length_typeerror :
    (({ f_2 := some 100, V_1 := some 60, V_2 := some 20 } :
        AchromDoublet).effective_focal_length).1 = .error .typeErr ∧
    (({ V_1 := some 60, V_2 := some 20 } :
        AchromDoublet).effective_focal_length).1 = .error .typeErr :=
  ⟨rfl, rfl⟩

/-- C3: the round trip fails. With `V_1 = 2`, `V_2 = 1`, `f_eq = 1000` (mm),
`focal_length_1` returns `1/2` (metres, after the mm→m conversion); feeding
that value back as `f_1` (with `f_2` set so the unconditional conversion
does not raise), `effective_focal_length` applies mm→m a second time and
returns `1/1000`, not the original `1000`. -/
theorem doublet_round_trip_fails :
    (({ f_eq := some 1000, V_1 := some 2, V_2 := some 1 } :
        AchromDoublet).focal_length_1).1 = .ok (1 / 2) ∧
    (({ f_1 := some (1 / 2), f_2 := some 1, V_1 := some 2, V_2 := some 1 } :
        AchromDoublet).effective_focal_length).1 = .ok (1 / 1000) ∧
    (1 / 1000 : ℝ) ≠ 1000 := by
  refine ⟨?_, ?_, by norm_num⟩
  · simp only [AchromDoublet.focal_length_1]
    norm_num
  · simp only [AchromDoublet.effective_focal_length]
    norm_num

/-- C6: `get_focal_length` selects the first satisfied path in the fixed
priority order `d_i`, then `d_o`, then `h_i / tan(radians(a_in))`, then
`h_o / tan(radians(a_out))`; with every field unset it fails with the
`ValueError` whose message names all four alternative paths. -/
theorem thin_lens_focal_length_paths (t : ThinLens) :
    (∀ x, t.d_i = some x → (t.get_focal_length).1 = .ok x) ∧
    (t.d_i = none → ∀ x, t.d_o = some x → (t.get_focal_length).1 = .ok x) ∧
    (t.d_i = none → t.d_o = none → ∀ h a, t.h_i = some (.scalar h) →
      t.a_in = some (.scalar a) →
      (t.get_focal_length).1 = .ok (.scalar (h / Real.tan (radians a)))) ∧
    (t.d_i = none → t.d_o = none → (t.h_i = none ∨ t.a_in = none) →
      ∀ h a, t.h_o = some (.scalar h) → t.a_out = some (.scalar a) →
      (t.get_focal_length).1 = .ok (.scalar (h / Real.tan (radians a)))) ∧
    (t.d_i = none → t.d_o = none → (t.h_i = none ∨ t.a_in = none) →
      (t.h_o = none ∨ t.a_out = none) →
      (t.get_focal_length).1 =
        .error (.valueErr
          "d_i or d_o or h_i and a_in or h_o and a_out must be set.")) := by
  refine ⟨?_, ?_, ?_, ?_, ?_⟩
  · intro x hx
    simp [ThinLens.get_focal_length, hx]
  · intro hdi x hx
    simp [ThinLens.get_focal_length, hdi, hx]
  · intro hdi hdo h a hh ha
    simp [ThinLens.get_focal_length, hdi, hdo, hh, ha, npMap, npBinop]
  · intro hdi hdo hskip h a hh ha
    rcases hskip with h3 | h3 <;>
      simp [ThinLens.get_focal_length, hdi, hdo, h3, hh, ha, npMap, npBinop]
  · intro hdi hdo hskip3 hskip4
    rcases hskip3 with h3 | h3 <;> rcases hskip4 with h4 | h4 <;>
      simp [ThinLens.get_focal_length, hdi, hdo, h3, h4]

theorem thin_lens_focal_length_paths_witness :
    ((({ d_i := some (.scalar 5) } : ThinLens)).get_focal_length).1 =
      .ok (.scalar 5) ∧
    ((({} : ThinLens)).get_focal_length).1 =
      .error (.valueErr
        "d_i or d_o or h_i and a_in or h_o and a_out must be set.") :=
  ⟨(thin_lens_focal_length_paths _).1 _ rfl,
   (thin_lens_focal_length_paths _).2.2.2.2 rfl rfl (Or.inl rfl)
     (Or.inl rfl)⟩

/-- Value of one output entry of the grism chain at zero apex angle, zero
fringe frequency and equal nonzero indices: the chain's sign convention
(`angle_3 = a - angle_2` on entry but `angle_9 = angle_8 - a` on exit)
negates the incidence angle. -/
theorem grism_identity_entry (n a_in m lj : ℝ) (hn : n ≠ 0)
    (hbound : |a_in| ≤ 90) :
    angleOutEntry a_in 0 n n n m 0 lj = some (-a_in) := by
  have hr := abs_radians_le_half_pi hbound
  rw [abs_le] at hr
  have hr0 : radians 0 = 0 := by unfold radians; ring
  have hneg1 : -(Real.pi / 2) ≤ -(radians a_in) := by linarith [hr.2]
  have hneg2 : -(radians a_in) ≤ Real.pi / 2 := by linarith [hr.1]
  have e2 : snell_angle_2 (some (radians a_in + radians 0)) n n =
      some (radians a_in) := by
    rw [hr0, add_zero]
    exact snell_same_index hn hr.1 hr.2
  have e4 : grism_angle_4 a_in 0 n n n = some (-(radians a_in)) := by
    show snell_angle_2 (osub (some (radians 0))
      (snell_angle_2 (some (radians a_in + radians 0)) n n)) n n = _
    rw [e2, hr0]
    show snell_angle_2 (some (0 - radians a_in)) n n = _
    rw [zero_sub]
    exact snell_same_index hn hneg1 hneg2
  have e6 : oasin (osub (osin (grism_angle_4 a_in 0 n n n))
      (some (m * (0 * (lj * (10:ℝ) ^ (-9:ℤ)))))) = some (-(radians a_in)) := by
    rw [e4]
    show oasin (some (Real.sin (-(radians a_in)) -
      m * (0 * (lj * (10:ℝ) ^ (-9:ℤ))))) = _
    rw [zero_mul, mul_zero, sub_zero]
    exact oasin_sin_eq hneg1 hneg2
  show omap degrees (oadd (snell_angle_2 (osub
      (snell_angle_2 (oasin (osub (osin (grism_angle_4 a_in 0 n n n))
        (some (m * (0 * (lj * (10:ℝ) ^ (-9:ℤ))))))) n n)
      (some (radians 0))) n n) (some (radians 0))) = some (-a_in)
  rw [e6, snell_same_index hn hneg1 hneg2, hr0]
  show omap degrees (oadd (snell_angle_2 (some (-(radians a_in) - 0)) n n)
    (some 0)) = some (-a_in)
  rw [sub_zero, snell_same_index hn hneg1 hneg2]
  show some (degrees (-(radians a_in) + 0)) = some (-a_in)
  rw [add_zero, degrees_neg, degrees_radians]

/-- C1: for a fully-set grism, `get_angle_out` returns the 1×n matrix (one
row per the scalar fringe-frequency column, one column per wavelength entry)
whose entries follow the fixed 10-stage chain of the claim: degree-to-radian
conversion of `a_in` and `a`, nm-to-m conversion of the wavelength,
`angle_1 = a_in + a`, Snell `n_1→n_2`, `angle_3 = a - angle_2`, Snell
`n_2→n_3`, the diffraction arcsine of `sin(angle_4) - m·(v·λ)`, Snell
`n_3→n_2`, `angle_9 = angle_8 - a`, Snell `n_2→n_1`, and finally
`degrees(angle_10 + a)`. -/
theorem grism_angle_out_chain (g : VPHGrism) (a_in a n_1 n_2 n_3 m v : ℝ)
    (l : NpInput) (hin : g.a_in = some a_in) (h1 : g.n_1 = some n_1)
    (h2 : g.n_2 = some n_2) (h3 : g.n_3 = some n_3) (hm : g.m = some m)
    (ha : g.a = some a) (hv : g.v = some v) (hl : g.l = some l) :
    (g.get_angle_out).1 =
      .ok [(reshapeCol l).map (fun lj =>
        omap degrees (oadd
          (snell_angle_2
            (osub
              (snell_angle_2
                (oasin (osub
                  (osin (snell_angle_2
                    (osub (some (radians a))
                      (snell_angle_2 (some (radians a_in + radians a)) n_1
                        n_2))
                    n_2 n_3))
                  (some (m * (v * (lj * (10:ℝ) ^ (-9:ℤ)))))))
                n_3 n_2)
              (some (radians a)))
            n_2 n_1)
          (some (radians a))))] := by
  simp only [VPHGrism.get_angle_out, hin, h1, h2, h3, hm, ha, hv, hl]
  rfl

theorem grism_angle_out_chain_witness :
    ((({ a_in := some 10, a := some 5, m := some 1, n_1 := some 1,
         n_2 := some (3 / 2), n_3 := some (3 / 2), v := some 600,
         l := some (.arr [500, 600]) } : VPHGrism).get_angle_out)).1 =
      .ok [(reshapeCol (.arr [500, 600])).map (fun lj =>
        omap degrees (oadd
          (snell_angle_2
            (osub
              (snell_angle_2
                (oasin (osub
                  (osin (snell_angle_2
                    (osub (some (radians 5))
                      (snell_angle_2 (some (radians 10 + radians 5)) 1
                        (3 / 2)))
                    (3 / 2) (3 / 2)))
                  (some (1 * (600 * (lj * (10:ℝ) ^ (-9:ℤ)))))))
                (3 / 2) (3 / 2))
              (some (radians 5)))
            (3 / 2) 1)
          (some (radians 5))))] :=
  grism_angle_out_chain _ 10 5 1 (3 / 2) (3 / 2) 1 600 (.arr [500, 600])
    rfl rfl rfl rfl rfl rfl rfl rfl

/-- C2 counterexample: at apex angle 0, fringe frequency 0, equal unit
indices and incidence angle 30°, `get_angle_out` does not return 30° — the
chain returns the negated incidence angle. -/
theorem grism_zero_config_cex :
    ((({ a_in := some 30, a := some 0, m := some 1, n_1 := some 1,
         n_2 := some 1, n_3 := some 1, v := some 0,
         l := some (.scalar 500) } : VPHGrism).get_angle_out)).1 ≠
      .ok [[some (30:ℝ)]] := by
  have h : ((({ a_in := some 30, a := some 0, m := some 1, n_1 := some 1,
                n_2 := some 1, n_3 := some 1, v := some 0,
                l := some (.scalar 500) } : VPHGrism).get_angle_out)).1 =
      .ok [[some (-(30:ℝ))]] := by
    have he := grism_identity_entry 1 30 1 500 (by norm_num) (by norm_num)
    simp [VPHGrism.get_angle_out, reshapeCol, he]
  rw [h]
  simp only [ne_eq, Except.ok.injEq, List.cons.injEq, Option.some.injEq,
    and_true]
  norm_num

/-- C2 (amended): at apex angle 0, fringe frequency 0 and equal *nonzero*
indices `n_1 = n_2 = n_3 = n`, for any incidence angle with `|a_in| ≤ 90`
and any wavelength input, every entry of `get_angle_out` equals the
*negated* incidence angle `-a_in` (magnitudes agree — no net refraction or
diffraction — but the chain's sign convention flips the sign). -/
theorem grism_zero_config_negates (g : VPHGrism) (n a_in m : ℝ) (l : NpInput)
    (ha : g.a = some 0) (hv : g.v = some 0) (h1 : g.n_1 = some n)
    (h2 : g.n_2 = some n) (h3 : g.n_3 = some n) (hn : n ≠ 0)
    (hin : g.a_in = some a_in) (hbound : |a_in| ≤ 90) (hm : g.m = some m)
    (hl : g.l = some l) :
    (g.get_angle_out).1 =
      .ok [(reshapeCol l).map (fun _ => some (-a_in))] := by
  have hmain : (g.get_angle_out).1 =
      .ok [(reshapeCol l).map (angleOutEntry a_in 0 n n n m 0)] := by
    simp [VPHGrism.get_angle_out, hin, h1, h2, h3, hm, ha, hv, hl]
  have hfun : angleOutEntry a_in 0 n n n m 0 = fun _ => some (-a_in) :=
    funext fun lj => grism_identity_entry n a_in m lj hn hbound
  rw [hmain, hfun]

theorem grism_zero_config_negates_witness :
    ((({ a_in := some 30, a := some 0, m := some 1, n_1 := some 1,
         n_2 := some 1, n_3 := some 1, v := some 0,
         l := some (.scalar 500) } : VPHGrism).get_angle_out)).1 =
      .ok [(reshapeCol (.scalar 500)).map (fun _ => some (-(30:ℝ)))] :=
  grism_zero_config_negates _ 1 30 1 (.scalar 500) rfl rfl rfl rfl rfl
    (by norm_num) rfl (by norm_num) rfl rfl

/-- C8: for a fully-set grism, whenever stages 1–4 give a real angle `θ5`
but the diffraction-equation arcsine argument `sin(θ5) - m·v·λ` has
magnitude above 1 (total internal reflection / outside the physical
domain), `get_angle_out` still returns `ok` — no exception — and the
corresponding matrix entry is NaN (`none`), the NaN having propagated
through stages 7–10 and the final degree conversion. -/
theorem grism_nan_propagation (g : VPHGrism) (a_in a n_1 n_2 n_3 m v θ5 lj : ℝ)
    (l : NpInput)
    (hin : g.a_in = some a_in) (h1 : g.n_1 = some n_1)
    (h2 : g.n_2 = some n_2) (h3 : g.n_3 = some n_3) (hm : g.m = some m)
    (ha : g.a = some a) (hv : g.v = some v) (hl : g.l = some l)
    (hstage : grism_angle_4 a_in a n_1 n_2 n_3 = some θ5)
    (harg : 1 < |Real.sin θ5 - m * (v * (lj * (10:ℝ) ^ (-9:ℤ)))|) :
    (g.get_angle_out).1 =
      .ok [(reshapeCol l).map (angleOutEntry a_in a n_1 n_2 n_3 m v)] ∧
    angleOutEntry a_in a n_1 n_2 n_3 m v lj = none := by
  constructor
  · simp [VPHGrism.get_angle_out, hin, h1, h2, h3, hm, ha, hv, hl]
  · have e6 : oasin (osub (osin (grism_angle_4 a_in a n_1 n_2 n_3))
        (some (m * (v * (lj * (10:ℝ) ^ (-9:ℤ)))))) = none := by
      rw [hstage]
      show (if |Real.sin θ5 - m * (v * (lj * (10:ℝ) ^ (-9:ℤ)))| ≤ 1
        then some (Real.arcsin
          (Real.sin θ5 - m * (v * (lj * (10:ℝ) ^ (-9:ℤ)))))
        else none) = none
      exact if_neg (not_le.mpr harg)
    show omap degrees (oadd (snell_angle_2 (osub
      (snell_angle_2 (oasin (osub (osin (grism_angle_4 a_in a n_1 n_2 n_3))
        (some (m * (v * (lj * (10:ℝ) ^ (-9:ℤ))))))) n_3 n_2)
      (some (radians a))) n_2 n_1) (some (radians a))) = none
    rw [e6]
    rfl

theorem grism_nan_propagation_witness :
    ((({ a_in := some 0, a := some 0, m := some 1, n_1 := some 1,
         n_2 := some 1, n_3 := some 1, v := some 1,
         l := some (.arr [3000000000]) } : VPHGrism).get_angle_out)).1 =
      .ok [(reshapeCol (.arr [3000000000])).map
        (angleOutEntry 0 0 1 1 1 1 1)] ∧
    angleOutEntry 0 0 1 1 1 1 1 3000000000 = none := by
  have hpi := Real.pi_pos
  have hb1 : -(Real.pi / 2) ≤ (0:ℝ) := by linarith
  have hb2 : (0:ℝ) ≤ Real.pi / 2 := by linarith
  have hr0 : radians 0 = 0 := by unfold radians; ring
  have hstage : grism_angle_4 0 0 1 1 1 = some 0 := by
    show snell_angle_2 (osub (some (radians 0))
      (snell_angle_2 (some (radians 0 + radians 0)) 1 1)) 1 1 = some 0
    rw [hr0, add_zero, snell_same_index one_ne_zero hb1 hb2]
    show snell_angle_2 (some ((0:ℝ) - 0)) 1 1 = some 0
    rw [sub_zero]
    exact snell_same_index one_ne_zero hb1 hb2
  have harg : 1 < |Real.sin 0 -
      1 * (1 * ((3000000000:ℝ) * (10:ℝ) ^ (-9:ℤ)))| := by
    have h3 : (3000000000:ℝ) * (10:ℝ) ^ (-9:ℤ) = 3 := by norm_num
    rw [Real.sin_zero, h3]
    rw [show (0:ℝ) - 1 * (1 * 3) = -3 by norm_num, abs_neg,
      abs_of_nonneg (by norm_num : (0:ℝ) ≤ 3)]
    norm_num
  exact grism_nan_propagation _ 0 0 1 1 1 1 1 0 3000000000
    (.arr [3000000000]) rfl rfl rfl rfl rfl rfl rfl rfl hstage harg

/-- C10: the vectorized derivations always return a 2-D matrix:
`get_angle_out` yields one row (the scalar parameters become one-element
columns) with one entry per wavelength-column element, and
`get_image_height` / `get_source_height` yield one row per focal-length
element and one column per angle element; `reshapeCol` turns a scalar into
a one-element column, so all-scalar inputs give a 1×1 matrix and a scalar
combined with an n-element array gives a 1×n matrix, never a bare scalar
or 1-D array. -/
theorem vectorized_results_are_matrices :
    (∀ (g : VPHGrism) (a_in a n_1 n_2 n_3 m v : ℝ) (l : NpInput),
      g.a_in = some a_in → g.n_1 = some n_1 → g.n_2 = some n_2 →
      g.n_3 = some n_3 → g.m = some m → g.a = some a → g.v = some v →
      g.l = some l →
      ∃ row, (g.get_angle_out).1 = .ok [row] ∧
        row.length = (reshapeCol l).length) ∧
    (∀ (t : ThinLens) (f a_in : NpInput), t.f = some f → t.a_in = some a_in →
      ∃ M, (t.get_image_height).1 = .ok M ∧
        M.length = (reshapeCol f).length ∧
        ∀ row ∈ M, row.length = (reshapeCol a_in).length) ∧
    (∀ (t : ThinLens) (f a_out : NpInput), t.f = some f →
      t.a_out = some a_out →
      ∃ M, (t.get_source_height).1 = .ok M ∧
        M.length = (reshapeCol f).length ∧
        ∀ row ∈ M, row.length = (reshapeCol a_out).length) ∧
    (∀ x : ℝ, reshapeCol (.scalar x) = [x]) ∧
    (∀ xs : List ℝ, reshapeCol (.arr xs) = xs) := by
  refine ⟨?_, ?_, ?_, fun _ => rfl, fun _ => rfl⟩
  · intro g a_in a n_1 n_2 n_3 m v l hin h1 h2 h3 hm ha hv hl
    refine ⟨(reshapeCol l).map (angleOutEntry a_in a n_1 n_2 n_3 m v), ?_,
      by simp⟩
    simp [VPHGrism.get_angle_out, hin, h1, h2, h3, hm, ha, hv, hl]
  · intro t f a_in hf ha
    refine ⟨(reshapeCol f).map (fun fi =>
      ((reshapeCol a_in).map radians).map (fun aj => fi * Real.tan aj)),
      ?_, by simp, ?_⟩
    · simp [ThinLens.get_image_height, hf, ha]
    · intro row hrow
      obtain ⟨fi, _, hfi⟩ := List.mem_map.mp hrow
      rw [← hfi]
      simp
  · intro t f a_out hf ha
    refine ⟨(reshapeCol f).map (fun fi =>
      ((reshapeCol a_out).map radians).map (fun aj => fi * Real.tan aj)),
      ?_, by simp, ?_⟩
    · simp [ThinLens.get_source_height, hf, ha]
    · intro row hrow
      obtain ⟨fi, _, hfi⟩ := List.mem_map.mp hrow
      rw [← hfi]
      simp

theorem vectorized_results_are_matrices_witness :
    (∃ row, ((({ a_in := some 0, a := some 0, m := some 1, n_1 := some 1,
                 n_2 := some 1, n_3 := some 1, v := some 0,
                 l := some (.scalar 500) } : VPHGrism).get_angle_out)).1 =
        .ok [row] ∧ row.length = (reshapeCol (.scalar 500)).length) ∧
    ∃ M, ((({ f := some (.scalar 10),
              a_in := some (.arr [0, 45]) } :
        ThinLens).get_image_height)).1 = .ok M ∧
      M.length = (reshapeCol (.scalar 10)).length ∧
      ∀ row ∈ M, row.length = (reshapeCol (.arr [0, 45])).length :=
  ⟨vectorized_results_are_matrices.1 _ 0 0 1 1 1 1 0 (.scalar 500)
      rfl rfl rfl rfl rfl rfl rfl rfl,
   vectorized_results_are_matrices.2.1 _ (.scalar 10) (.arr [0, 45])
      rfl rfl⟩

end PayloadDesigner
